import Mathlib

/-!
Shallow embedding of `src/openai-mcp-server.js` (marchampson/mcp-openai-server):
an MCP server exposing three tools (listModels, chatCompletion, createEmbedding)
that each make one upstream HTTP call to the OpenAI API and reshape the JSON
response into a uniform response envelope.

Modelling conventions:
* JavaScript values reachable in the handlers are modelled by `JsVal`
  (with an explicit `undefined`, and numbers as `ℚ` — the handlers only use
  numeric literals and echo caller/upstream numbers, so rationals suffice).
* The `arguments` object of an invocation is an association list (first
  binding wins); a key absent from the list destructures to `undefined`,
  exactly like JS destructuring.
* Each handler is a pure function of the arguments, an `upstream` oracle
  mapping an outbound HTTP request to the upstream's response, and a
  `faultMsg` string standing for the message of whatever runtime exception
  (e.g. a TypeError from traversing a malformed upstream body) occurs in the
  branches the source does not guard; the handler returns the response
  envelope together with the list of HTTP requests it issued, so "zero
  upstream calls" is the second component being `[]`.
* JS property/index access is modelled by `jsGet`/`jsIndex` in the `Except`
  monad: accessing a property of `null`/`undefined` throws (`.error ()`),
  every other access yields a value (`undefined` for an absent property).
* The dispatcher's `HANDLERS[toolName]` lookup traverses the prototype
  chain of the object literal: the twelve `Object.prototype` member names
  find truthy inherited values, so the `Unknown tool` throw is skipped
  for them. Calling those members with an `undefined` this (strict-mode
  ES module) returns the ECMA-262-mandated raw value for `toString`
  (`"[object Undefined]"`) and `constructor` (the argument object itself),
  and throws a TypeError — whose implementation-defined message is the
  `protoFaultMsg` parameter — for the remaining ten, which the dispatch
  catch converts to a metadata-less envelope. `invoke` therefore returns
  an `InvokeResult`: an envelope, or the raw non-envelope value those two
  names produce.
* `Date.prototype.toISOString` is modelled on integral millisecond
  timestamps within the ECMAScript time range (|ms| ≤ 8.64e15), including
  the expanded six-digit year format outside years 0000-9999; beyond the
  range the source's `Date` is invalid and `toISOString` throws a
  RangeError, which the model routes to the fault path. Template-string
  interpolation of fractional numbers, arrays and objects, coercion of
  non-numeric `created` values by `Date`, and fractional millisecond
  values (which `Date` truncates) are not modelled: those branches are
  routed to the fault path and no behaviour specified for this program
  reaches them.
-/

/-- A JavaScript value as used by the handlers: JSON values plus `undefined`.
Numbers are modelled as rationals. -/
inductive JsVal where
  | undefined : JsVal
  | null : JsVal
  | bool : Bool → JsVal
  | num : ℚ → JsVal
  | str : String → JsVal
  | arr : List JsVal → JsVal
  | obj : List (String × JsVal) → JsVal


/-- JS truthiness (`!v` is `!truthy v`): `undefined`, `null`, `false`, `0` and
`""` are falsy; every array and object is truthy. (`NaN` is not representable.) -/
def truthy : JsVal → Bool
  | .undefined => false
  | .null => false
  | .bool b => b
  | .num q => !(q == 0)
  | .str s => !(s == "")
  | .arr _ => true
  | .obj _ => true

/-- `Array.isArray`. -/
def isArray : JsVal → Bool
  | .arr _ => true
  | _ => false

/-- `v.length === 0` for the value already known to be an array (the source
only evaluates it after `Array.isArray` has passed). -/
def lengthZero : JsVal → Bool
  | .arr xs => xs.isEmpty
  | _ => false

/-- The `arguments` object of a tool invocation, as an association list. -/
def Args : Type := List (String × JsVal)

/-- JS destructuring `const { k } = args`: the bound value, `undefined` when
the key is absent. -/
def getArg (args : Args) (k : String) : JsVal :=
  match List.find? (fun p => p.1 == k) args with
  | some p => p.2
  | none => JsVal.undefined

/-- JS property access `v.k`: throws a TypeError on `null`/`undefined`,
looks up own properties on objects, exposes `length` on arrays and strings,
and yields `undefined` on any other base. -/
def jsGet : JsVal → String → Except Unit JsVal
  | .undefined, _ => .error ()
  | .null, _ => .error ()
  | .obj kvs, k =>
      .ok (match List.find? (fun p => p.1 == k) kvs with
           | some p => p.2
           | none => JsVal.undefined)
  | .arr xs, k => .ok (if k == "length" then JsVal.num xs.length else JsVal.undefined)
  | .str s, k => .ok (if k == "length" then JsVal.num s.length else JsVal.undefined)
  | _, _ => .ok JsVal.undefined

/-- JS index access `v[i]` for a numeric literal index: throws on
`null`/`undefined`, indexes arrays (`undefined` out of bounds), looks up the
stringified index on objects, `undefined` on other bases. -/
def jsIndex : JsVal → Nat → Except Unit JsVal
  | .undefined, _ => .error ()
  | .null, _ => .error ()
  | .arr xs, i =>
      .ok (match xs.get? i with
           | some x => x
           | none => JsVal.undefined)
  | .obj kvs, i =>
      .ok (match List.find? (fun p => p.1 == toString i) kvs with
           | some p => p.2
           | none => JsVal.undefined)
  | _, _ => .ok JsVal.undefined

/-- Template-string interpolation of a value already known to be a primitive
in the source; composite values and fractional numbers are not modelled. -/
def templateStr : JsVal → Option String
  | .str s => some s
  | .num q => if q.den == 1 then some (toString q.num) else none
  | .undefined => some "undefined"
  | .null => some "null"
  | .bool b => some (toString b)
  | _ => none

/-- Lift an `Option` into `Except Unit`, the unmodelled case becoming a
runtime fault. -/
def ofOption : Option α → Except Unit α
  | some a => .ok a
  | none => .error ()

/-- One content item of a response envelope: always `type: "text"` in this
program; the `text` field holds whatever JS value the handler put there. -/
structure ContentItem where
  type : String
  text : JsVal


/-- The response envelope every invocation returns. `metadata = none` and
`isError = none` model the respective field being absent from the JS object. -/
structure ResponseEnvelope where
  content : List ContentItem
  metadata : Option (List (String × JsVal))
  isError : Option Bool


/-- An outbound HTTP request issued by a handler. -/
structure HttpRequest where
  method : String
  url : String
  body : Option JsVal


/-- What the upstream does with a request: respond non-ok (the body read as
text, lines 58-60 / 136-139 / 204-206), or respond ok, in which case
`response.json()` either parses to a value or throws with a message. -/
inductive UpstreamResult where
  | failure : String → UpstreamResult
  | success : Except String JsVal → UpstreamResult

/-- The error envelope a handler's own catch block builds: one text item,
empty `metadata`, `isError: true` (lines 88-97, 163-172, 226-235). -/
def errorEnvelope (text : String) : ResponseEnvelope :=
  { content := [⟨"text", JsVal.str text⟩], metadata := some [], isError := some true }

/-- The fixed upstream base URL (line 17). -/
def OPENAI_API_URL : String := "https://api.openai.com"

/-- The GET request `listModels` issues (lines 50-56). -/
def modelsHttpRequest : HttpRequest :=
  ⟨"GET", OPENAI_API_URL ++ "/v1/models", none⟩

/-- The `openaiRequest` body `chatCompletion` builds (lines 116-122):
falsy `model` is replaced by the default, `temperature`/`max_tokens` are
defaulted only when strictly `undefined`, and `stream` is always `false`. -/
def chatRequestBody (args : Args) : JsVal :=
  JsVal.obj
    [ ("model", if truthy (getArg args "model") then getArg args "model"
                else JsVal.str "gpt-3.5-turbo"),
      ("messages", getArg args "messages"),
      ("temperature", match getArg args "temperature" with
                      | JsVal.undefined => JsVal.num (7/10)
                      | t => t),
      ("max_tokens", match getArg args "max_tokens" with
                     | JsVal.undefined => JsVal.num 150
                     | m => m),
      ("stream", JsVal.bool false) ]

/-- The POST request `chatCompletion` issues (lines 127-134). -/
def chatHttpRequest (args : Args) : HttpRequest :=
  ⟨"POST", OPENAI_API_URL ++ "/v1/chat/completions", some (chatRequestBody args)⟩

/-- Projection of a successful chat-completion body (lines 142-160):
`data.choices[0].message.content` becomes the sole text item and
`metadata = {model, usage, finish_reason}`; a fault while traversing the
body is a thrown TypeError (`.error`). -/
def chatProject (data : JsVal) : Except Unit ResponseEnvelope := do
  let choices ← jsGet data "choices"
  let c0 ← jsIndex choices 0
  let msg ← jsGet c0 "message"
  let assistantMessage ← jsGet msg "content"
  let model ← jsGet data "model"
  let usage ← jsGet data "usage"
  let choices2 ← jsGet data "choices"
  let c0' ← jsIndex choices2 0
  let fr ← jsGet c0' "finish_reason"
  pure { content := [⟨"text", assistantMessage⟩],
         metadata := some [("model", model), ("usage", usage), ("finish_reason", fr)],
         isError := none }

/-- The validation condition of `chatCompletion` (line 111):
`!messages || !Array.isArray(messages) || messages.length === 0`. -/
def messagesInvalid (messages : JsVal) : Bool :=
  !truthy messages || !isArray messages || lengthZero messages

/-- The `chatCompletion` handler (lines 102-174). -/
def chatCompletion (args : Args) (upstream : HttpRequest → UpstreamResult)
    (faultMsg : String) : ResponseEnvelope × List HttpRequest :=
  if messagesInvalid (getArg args "messages") then
    (errorEnvelope "Error: Messages array is required and must not be empty", [])
  else
    match upstream (chatHttpRequest args) with
    | .failure errorText =>
        (errorEnvelope ("Error: OpenAI API error: " ++ errorText), [chatHttpRequest args])
    | .success (.error parseMsg) =>
        (errorEnvelope ("Error: " ++ parseMsg), [chatHttpRequest args])
    | .success (.ok data) =>
        match chatProject data with
        | .ok env => (env, [chatHttpRequest args])
        | .error _ => (errorEnvelope ("Error: " ++ faultMsg), [chatHttpRequest args])

/-- `Date.prototype.toISOString` for a millisecond timestamp inside the
ECMAScript time range |ms| ≤ 8.64e15 (ECMA-262 21.4.1.1), rendered in the
Date Time String Format `YYYY-MM-DDTHH:mm:ss.sssZ` with the expanded
six-digit `+YYYYYY`/`-YYYYYY` year form outside years 0000-9999
(ECMA-262 21.4.4.36): the timestamp is shifted by 685 Gregorian 400-year
eras into the non-negative range and converted by the standard
civil-from-days calculation. Checked against the documented extremes
`+275760-09-13T00:00:00.000Z` and `-271821-04-20T00:00:00.000Z`. -/
def toISOString (ms : Int) : String :=
  let pad := fun (w n : Nat) =>
    let s := toString n
    String.mk (List.replicate (w - s.length) '0') ++ s
  let msN : Nat := (ms + 685 * 146097 * 86400000).toNat
  let msPart := msN % 1000
  let totalSecs := msN / 1000
  let s := totalSecs % 60
  let totalMins := totalSecs / 60
  let mi := totalMins % 60
  let totalHours := totalMins / 60
  let h := totalHours % 24
  let days := totalHours / 24
  let z := days + 719468
  let era := z / 146097
  let doe := z % 146097
  let yoe := (doe - doe / 1460 + doe / 36524 - doe / 146096) / 365
  let doy := doe - (365 * yoe + yoe / 4 - yoe / 100)
  let mp := (5 * doy + 2) / 153
  let d := doy - (153 * mp + 2) / 5 + 1
  let m := if mp < 10 then mp + 3 else mp - 9
  let y : Int := (yoe + era * 400 + (if m ≤ 2 then 1 else 0) : Nat) - 685 * 400
  let yearStr :=
    if 0 ≤ y ∧ y ≤ 9999 then pad 4 y.toNat
    else if y < 0 then "-" ++ pad 6 (-y).toNat
    else "+" ++ pad 6 y.toNat
  yearStr ++ "-" ++ pad 2 m ++ "-" ++ pad 2 d ++ "T" ++
    pad 2 h ++ ":" ++ pad 2 mi ++ ":" ++ pad 2 s ++ "." ++ pad 3 msPart ++ "Z"

/-- `new Date(created * 1000).toISOString()` for a numeric `created`
(lines 69-71): formats integral millisecond values inside the ECMAScript
time range; outside it the `Date` is invalid and `toISOString` throws a
RangeError (fault); a fractional millisecond value (truncated by `Date`)
is not modelled and also faults. -/
def isoOfEpochSeconds (created : ℚ) : Option String :=
  let ms := created * 1000
  if ms.den = 1 ∧ -8640000000000000 ≤ ms.num ∧ ms.num ≤ 8640000000000000 then
    some (toISOString ms.num)
  else none

/-- Formatting of one model entry (lines 67-72):
`- <id> (created: <ISO timestamp of created * 1000>)`. -/
def formatModel (model : JsVal) : Except Unit String := do
  let id ← jsGet model "id"
  let idStr ← ofOption (templateStr id)
  let created ← jsGet model "created"
  let isoStr ← match created with
    | JsVal.num q => ofOption (isoOfEpochSeconds q)
    | _ => Except.error ()
  pure ("- " ++ idStr ++ " (created: " ++ isoStr ++ ")")

/-- `data.data.map(formatModel)`, sequenced left to right, the first thrown
exception aborting the whole map. -/
def formatModels : List JsVal → Except Unit (List String)
  | [] => .ok []
  | m :: ms => do
      let line ← formatModel m
      let rest ← formatModels ms
      pure (line :: rest)

/-- Projection of a successful models-list body (lines 63-85): each entry of
`data.data` formatted and joined with newlines under a fixed header;
`metadata.count = data.data.length`. -/
def listProject (data : JsVal) : Except Unit ResponseEnvelope := do
  let dd ← jsGet data "data"
  let models ← match dd with
    | JsVal.arr ms => Except.ok ms
    | _ => Except.error ()
  let lines ← formatModels models
  pure { content := [⟨"text", JsVal.str
           ("Available OpenAI Models:\n\n" ++ String.intercalate "\n" lines)⟩],
         metadata := some [("count", JsVal.num models.length)],
         isError := none }

/-- The `listModels` handler (lines 46-99). -/
def listModels (upstream : HttpRequest → UpstreamResult)
    (faultMsg : String) : ResponseEnvelope × List HttpRequest :=
  match upstream modelsHttpRequest with
  | .failure errorText =>
      (errorEnvelope ("Error listing models: OpenAI API error: " ++ errorText), [modelsHttpRequest])
  | .success (.error parseMsg) =>
      (errorEnvelope ("Error listing models: " ++ parseMsg), [modelsHttpRequest])
  | .success (.ok data) =>
      match listProject data with
      | .ok env => (env, [modelsHttpRequest])
      | .error _ => (errorEnvelope ("Error listing models: " ++ faultMsg), [modelsHttpRequest])

/-- The `openaiRequest` body `createEmbedding` builds (lines 189-192). -/
def embeddingRequestBody (args : Args) : JsVal :=
  JsVal.obj
    [ ("model", if truthy (getArg args "model") then getArg args "model"
                else JsVal.str "text-embedding-ada-002"),
      ("input", getArg args "input") ]

/-- The POST request `createEmbedding` issues (lines 195-202). -/
def embeddingHttpRequest (args : Args) : HttpRequest :=
  ⟨"POST", OPENAI_API_URL ++ "/v1/embeddings", some (embeddingRequestBody args)⟩

/-- Projection of a successful embeddings body (lines 209-223): report
`data.data[0].embedding.length` as text; `metadata = {model, usage}`. -/
def embedProject (data : JsVal) : Except Unit ResponseEnvelope := do
  let dd ← jsGet data "data"
  let d0 ← jsIndex dd 0
  let emb ← jsGet d0 "embedding"
  let len ← jsGet emb "length"
  let lenStr ← ofOption (templateStr len)
  let model ← jsGet data "model"
  let usage ← jsGet data "usage"
  pure { content := [⟨"text", JsVal.str
           ("Embedding generated successfully. Vector dimension: " ++ lenStr)⟩],
         metadata := some [("model", model), ("usage", usage)],
         isError := none }

/-- The `createEmbedding` handler (lines 177-237). -/
def createEmbedding (args : Args) (upstream : HttpRequest → UpstreamResult)
    (faultMsg : String) : ResponseEnvelope × List HttpRequest :=
  if !truthy (getArg args "input") then
    (errorEnvelope "Error: Input is required", [])
  else
    match upstream (embeddingHttpRequest args) with
    | .failure errorText =>
        (errorEnvelope ("Error: OpenAI API error: " ++ errorText), [embeddingHttpRequest args])
    | .success (.error parseMsg) =>
        (errorEnvelope ("Error: " ++ parseMsg), [embeddingHttpRequest args])
    | .success (.ok data) =>
        match embedProject data with
        | .ok env => (env, [embeddingHttpRequest args])
        | .error _ => (errorEnvelope ("Error: " ++ faultMsg), [embeddingHttpRequest args])

/-- Whether a tool name is one of the three own keys of `HANDLERS`
(lines 44-238). -/
def registeredTool (name : String) : Bool :=
  name == "listModels" || name == "chatCompletion" || name == "createEmbedding"

/-- The property names every plain object literal inherits from
`Object.prototype` (ECMA-262 20.2.3 together with the Annex B accessors):
for these, `HANDLERS[toolName]` finds a truthy inherited value, so the
`if (!handler)` guard at line 342 does not fire. -/
def objectPrototypeKey (name : String) : Bool :=
  name == "constructor" || name == "hasOwnProperty" || name == "isPrototypeOf" ||
  name == "propertyIsEnumerable" || name == "toLocaleString" || name == "toString" ||
  name == "valueOf" || name == "__proto__" || name == "__defineGetter__" ||
  name == "__defineSetter__" || name == "__lookupGetter__" || name == "__lookupSetter__"

/-- The incoming call-tool request object the dispatcher passes to the
handler (line 345), as a JS value. -/
def toolRequest (name : String) (args : Args) : JsVal :=
  JsVal.obj [("params", JsVal.obj
    [("name", JsVal.str name), ("arguments", JsVal.obj args)])]

/-- What an invocation hands back to the caller: a response envelope, or —
when the prototype-chain lookup found an inherited function that returns
normally — that function's raw, non-envelope return value. -/
inductive InvokeResult where
  | envelope : ResponseEnvelope → InvokeResult
  | raw : JsVal → InvokeResult

/-- Whether an invocation result is a raw non-envelope value. -/
def isRawResult : InvokeResult → Bool
  | .raw _ => true
  | .envelope _ => false

/-- Every content item of a returned envelope has `type: "text"`
(vacuously true of a raw result, which has no content items). -/
def resultContentAllText : InvokeResult → Bool
  | .envelope e => e.content.all (fun c => c.type == "text")
  | .raw _ => true

/-- Whether the returned envelope carries a `metadata` field (a raw result
carries none). -/
def resultMetadataPresent : InvokeResult → Bool
  | .envelope e => e.metadata.isSome
  | .raw _ => false

/-- The dispatcher (lines 336-358): `HANDLERS[toolName]` finds the three own
keys first, then the inherited `Object.prototype` members. A registered
handler's envelope is returned. `toString` called with an `undefined` this
returns the string `"[object Undefined]"` (ECMA-262 20.2.3.6 step 1) and
`constructor` — the `Object` constructor — returns its object argument, the
request itself (ECMA-262 20.2.1.1): both raw values are returned to the
caller without the catch firing. The other ten inherited members throw a
TypeError when invoked this way (`ToObject(undefined)`, `this.toString()`
on `undefined`, or calling the non-callable `__proto__` getter result),
whose implementation-defined message `protoFaultMsg` the dispatch catch
formats as `Error: <message>` in a metadata-less envelope. Any other name
throws `Unknown tool: <name>`, caught the same way (lines 341-356). -/
def invoke (name : String) (args : Args) (upstream : HttpRequest → UpstreamResult)
    (faultMsg protoFaultMsg : String) : InvokeResult × List HttpRequest :=
  if name = "listModels" then
    (InvokeResult.envelope (listModels upstream faultMsg).1,
     (listModels upstream faultMsg).2)
  else if name = "chatCompletion" then
    (InvokeResult.envelope (chatCompletion args upstream faultMsg).1,
     (chatCompletion args upstream faultMsg).2)
  else if name = "createEmbedding" then
    (InvokeResult.envelope (createEmbedding args upstream faultMsg).1,
     (createEmbedding args upstream faultMsg).2)
  else if name = "toString" then
    (InvokeResult.raw (JsVal.str "[object Undefined]"), [])
  else if name = "constructor" then
    (InvokeResult.raw (toolRequest name args), [])
  else if objectPrototypeKey name then
    (InvokeResult.envelope
      { content := [⟨"text", JsVal.str ("Error: " ++ protoFaultMsg)⟩],
        metadata := none, isError := some true }, [])
  else
    (InvokeResult.envelope
      { content := [⟨"text", JsVal.str ("Error: Unknown tool: " ++ name)⟩],
        metadata := none, isError := some true }, [])

/-- A tool descriptor as returned by the discovery handler. -/
structure ToolDescriptor where
  name : String
  description : String
  inputSchema : JsVal


/-- `LIST_MODELS_TOOL` (lines 258-266). -/
def LIST_MODELS_TOOL : ToolDescriptor :=
  { name := "listModels",
    description := "List available OpenAI models",
    inputSchema := JsVal.obj
      [ ("type", JsVal.str "object"),
        ("properties", JsVal.obj []),
        ("required", JsVal.arr []) ] }

/-- `CHAT_COMPLETION_TOOL` (lines 268-307). -/
def CHAT_COMPLETION_TOOL : ToolDescriptor :=
  { name := "chatCompletion",
    description := "Generate a response using OpenAI's chat completion API",
    inputSchema := JsVal.obj
      [ ("type", JsVal.str "object"),
        ("properties", JsVal.obj
          [ ("model", JsVal.obj
              [ ("type", JsVal.str "string"),
                ("description", JsVal.str "The model to use (e.g., gpt-3.5-turbo, gpt-4)") ]),
            ("messages", JsVal.obj
              [ ("type", JsVal.str "array"),
                ("description", JsVal.str "The conversation messages"),
                ("items", JsVal.obj
                  [ ("type", JsVal.str "object"),
                    ("properties", JsVal.obj
                      [ ("role", JsVal.obj
                          [ ("type", JsVal.str "string"),
                            ("description", JsVal.str
                              "The role of the message sender (system, user, assistant)") ]),
                        ("content", JsVal.obj
                          [ ("type", JsVal.str "string"),
                            ("description", JsVal.str "The content of the message") ]) ]) ]) ]),
            ("temperature", JsVal.obj
              [ ("type", JsVal.str "number"),
                ("description", JsVal.str "Controls randomness (0-1)") ]),
            ("max_tokens", JsVal.obj
              [ ("type", JsVal.str "number"),
                ("description", JsVal.str "Maximum number of tokens to generate") ]) ]),
        ("required", JsVal.arr [JsVal.str "messages"]) ] }

/-- `CREATE_EMBEDDING_TOOL` (lines 309-328). -/
def CREATE_EMBEDDING_TOOL : ToolDescriptor :=
  { name := "createEmbedding",
    description := "Generate embeddings for text using OpenAI's embedding API",
    inputSchema := JsVal.obj
      [ ("type", JsVal.str "object"),
        ("properties", JsVal.obj
          [ ("model", JsVal.obj
              [ ("type", JsVal.str "string"),
                ("description", JsVal.str "The model to use (e.g., text-embedding-ada-002)") ]),
            ("input", JsVal.obj
              [ ("type", JsVal.arr [JsVal.str "string", JsVal.str "array"]),
                ("description", JsVal.str
                  "The text to embed, can be a string or array of strings") ]) ]),
        ("required", JsVal.arr [JsVal.str "input"]) ] }

/-- The discovery handler (lines 254-333): ignores its request and returns
the three descriptors in declaration order, issuing no HTTP request. -/
def handleListTools (_request : JsVal) : List ToolDescriptor × List HttpRequest :=
  ([LIST_MODELS_TOOL, CHAT_COMPLETION_TOOL, CREATE_EMBEDDING_TOOL], [])

/-! Helper lemmas about the envelopes the handlers can produce. -/

/-- Every envelope `chatProject` successfully returns carries a `metadata`
field and only `text` content items. -/
theorem chatProject_ok_shape (data : JsVal) (env : ResponseEnvelope)
    (h : chatProject data = .ok env) :
    env.metadata.isSome = true ∧ env.content.all (fun c => c.type == "text") = true := by
  unfold chatProject at h
  simp only [bind, Except.bind] at h
  repeat' split at h
  all_goals try simp only [pure, Except.pure, Except.ok.injEq] at h
  all_goals first
    | exact absurd h (by simp)
    | (subst h; exact ⟨rfl, rfl⟩)

/-- Every envelope `listProject` successfully returns carries a `metadata`
field and only `text` content items. -/
theorem listProject_ok_shape (data : JsVal) (env : ResponseEnvelope)
    (h : listProject data = .ok env) :
    env.metadata.isSome = true ∧ env.content.all (fun c => c.type == "text") = true := by
  unfold listProject at h
  simp only [bind, Except.bind] at h
  repeat' split at h
  all_goals try simp only [pure, Except.pure, Except.ok.injEq] at h
  all_goals first
    | exact absurd h (by simp)
    | (subst h; exact ⟨rfl, rfl⟩)

/-- Every envelope `embedProject` successfully returns carries a `metadata`
field and only `text` content items. -/
theorem embedProject_ok_shape (data : JsVal) (env : ResponseEnvelope)
    (h : embedProject data = .ok env) :
    env.metadata.isSome = true ∧ env.content.all (fun c => c.type == "text") = true := by
  unfold embedProject at h
  simp only [bind, Except.bind] at h
  repeat' split at h
  all_goals try simp only [pure, Except.pure, Except.ok.injEq] at h
  all_goals first
    | exact absurd h (by simp)
    | (subst h; exact ⟨rfl, rfl⟩)

/-- Every envelope `chatCompletion` returns carries a `metadata` field and
only `text` content items. -/
theorem chatCompletion_envelope_shape (args : Args) (u : HttpRequest → UpstreamResult)
    (f : String) :
    ((chatCompletion args u f).1.metadata.isSome = true) ∧
    ((chatCompletion args u f).1.content.all (fun c => c.type == "text") = true) := by
  unfold chatCompletion
  split
  · exact ⟨rfl, rfl⟩
  · split
    · exact ⟨rfl, rfl⟩
    · exact ⟨rfl, rfl⟩
    · split
      next env heq => exact chatProject_ok_shape _ _ heq
      next => exact ⟨rfl, rfl⟩

/-- Every envelope `listModels` returns carries a `metadata` field and only
`text` content items. -/
theorem listModels_envelope_shape (u : HttpRequest → UpstreamResult) (f : String) :
    ((listModels u f).1.metadata.isSome = true) ∧
    ((listModels u f).1.content.all (fun c => c.type == "text") = true) := by
  unfold listModels
  split
  · exact ⟨rfl, rfl⟩
  · exact ⟨rfl, rfl⟩
  · split
    next env heq => exact listProject_ok_shape _ _ heq
    next => exact ⟨rfl, rfl⟩

/-- Every envelope `createEmbedding` returns carries a `metadata` field and
only `text` content items. -/
theorem createEmbedding_envelope_shape (args : Args) (u : HttpRequest → UpstreamResult)
    (f : String) :
    ((createEmbedding args u f).1.metadata.isSome = true) ∧
    ((createEmbedding args u f).1.content.all (fun c => c.type == "text") = true) := by
  unfold createEmbedding
  split
  · exact ⟨rfl, rfl⟩
  · split
    · exact ⟨rfl, rfl⟩
    · exact ⟨rfl, rfl⟩
    · split
      next env heq => exact embedProject_ok_shape _ _ heq
      next => exact ⟨rfl, rfl⟩

/-! Claim theorems. -/

/-- C1 (counterexample): three concrete invocations violate the claimed
shape: the unknown tool `"foo"` yields an envelope with no `metadata`
field; the non-registered name `"toString"` yields the raw string
`"[object Undefined]"`, not an envelope; and a chat success body whose
`choices[0].message.content` is the number `42` yields a content item
whose `text` is not a string. -/
theorem C1_shape_violations :
    (invoke "foo" [] (fun _ => UpstreamResult.failure "") "" "").1
      = InvokeResult.envelope
          { content := [⟨"text", JsVal.str "Error: Unknown tool: foo"⟩],
            metadata := none, isError := some true } ∧
    (invoke "toString" [] (fun _ => UpstreamResult.failure "") "" "").1
      = InvokeResult.raw (JsVal.str "[object Undefined]") ∧
    (chatCompletion
        [("messages", JsVal.arr [JsVal.obj
            [("role", JsVal.str "user"), ("content", JsVal.str "Hello")]])]
        (fun _ => UpstreamResult.success (Except.ok (JsVal.obj
          [("model", JsVal.str "x"),
           ("choices", JsVal.arr [JsVal.obj
              [("message", JsVal.obj [("content", JsVal.num 42)]),
               ("finish_reason", JsVal.str "stop")]]),
           ("usage", JsVal.obj [])]))) "").1.content
      = [⟨"text", JsVal.num 42⟩] :=
  ⟨rfl, rfl, rfl⟩

/-- C1 (amended): no raw exception ever propagates out of the invocation
boundary, and — except for the `Object.prototype`-inherited names
`toString` and `constructor`, where the prototype-chain lookup finds an
inherited function whose raw return value (`"[object Undefined]"`,
resp. the request object) is returned instead of an envelope — every
invocation returns a `ResponseEnvelope` `{content: sequence of
{type:"text", text}, metadata?: object, isError?: boolean}`; every content
item has `type: "text"`, the `metadata` field is present exactly on the
envelopes the three registered handlers produce (the dispatcher’s
catch-all envelopes omit it), and the `text` is the string the handler
formats except where the chat success path echoes a non-string upstream
`choices[0].message.content` verbatim. -/
theorem C1_invoke_envelope_shape (name : String) (args : Args)
    (u : HttpRequest → UpstreamResult) (f g : String) :
    resultContentAllText (invoke name args u f g).1 = true ∧
    resultMetadataPresent (invoke name args u f g).1 = registeredTool name ∧
    isRawResult (invoke name args u f g).1
      = (name == "toString" || name == "constructor") := by
  by_cases h1 : name = "listModels"
  · subst h1
    have e : invoke "listModels" args u f g =
        (InvokeResult.envelope (listModels u f).1, (listModels u f).2) := by
      unfold invoke; rw [if_pos rfl]
    rw [e]
    refine ⟨(listModels_envelope_shape u f).2, ?_, rfl⟩
    show (listModels u f).1.metadata.isSome = _
    rw [(listModels_envelope_shape u f).1]; rfl
  by_cases h2 : name = "chatCompletion"
  · subst h2
    have e : invoke "chatCompletion" args u f g =
        (InvokeResult.envelope (chatCompletion args u f).1, (chatCompletion args u f).2) := by
      unfold invoke; rw [if_neg (by decide), if_pos rfl]
    rw [e]
    refine ⟨(chatCompletion_envelope_shape args u f).2, ?_, rfl⟩
    show (chatCompletion args u f).1.metadata.isSome = _
    rw [(chatCompletion_envelope_shape args u f).1]; rfl
  by_cases h3 : name = "createEmbedding"
  · subst h3
    have e : invoke "createEmbedding" args u f g =
        (InvokeResult.envelope (createEmbedding args u f).1, (createEmbedding args u f).2) := by
      unfold invoke; rw [if_neg (by decide), if_neg (by decide), if_pos rfl]
    rw [e]
    refine ⟨(createEmbedding_envelope_shape args u f).2, ?_, rfl⟩
    show (createEmbedding args u f).1.metadata.isSome = _
    rw [(createEmbedding_envelope_shape args u f).1]; rfl
  by_cases h4 : name = "toString"
  · subst h4
    have e : invoke "toString" args u f g =
        (InvokeResult.raw (JsVal.str "[object Undefined]"), []) := by
      unfold invoke
      rw [if_neg (by decide), if_neg (by decide), if_neg (by decide), if_pos rfl]
    rw [e]
    exact ⟨rfl, rfl, rfl⟩
  by_cases h5 : name = "constructor"
  · subst h5
    have e : invoke "constructor" args u f g =
        (InvokeResult.raw (toolRequest "constructor" args), []) := by
      unfold invoke
      rw [if_neg (by decide), if_neg (by decide), if_neg (by decide),
          if_neg (by decide), if_pos rfl]
    rw [e]
    exact ⟨rfl, rfl, rfl⟩
  · have hreg : registeredTool name = false := by
      unfold registeredTool
      simp [h1, h2, h3]
    have hts : (name == "toString") = false := beq_eq_false_iff_ne.mpr h4
    have hcs : (name == "constructor") = false := beq_eq_false_iff_ne.mpr h5
    rcases hob : objectPrototypeKey name with _ | _
    · have e : invoke name args u f g =
          (InvokeResult.envelope
            { content := [⟨"text", JsVal.str ("Error: Unknown tool: " ++ name)⟩],
              metadata := none, isError := some true }, []) := by
        unfold invoke
        rw [if_neg h1, if_neg h2, if_neg h3, if_neg h4, if_neg h5, hob,
            if_neg (by decide)]
      rw [e]
      refine ⟨rfl, ?_, ?_⟩
      · rw [hreg]; rfl
      · rw [hts, hcs]; rfl
    · have e : invoke name args u f g =
          (InvokeResult.envelope
            { content := [⟨"text", JsVal.str ("Error: " ++ g)⟩],
              metadata := none, isError := some true }, []) := by
        unfold invoke
        rw [if_neg h1, if_neg h2, if_neg h3, if_neg h4, if_neg h5, hob,
            if_pos rfl]
      rw [e]
      refine ⟨rfl, ?_, ?_⟩
      · rw [hreg]; rfl
      · rw [hts, hcs]; rfl

/-- C2 (counterexample): the unknown tool `"foo"` gets the text
`"Error: Unknown tool: foo"`, not the claimed exact text
`"Unknown tool: foo"`; and the non-registered name `"toString"` does not
get the unknown-tool envelope at all — the prototype-chain lookup finds
the inherited `Object.prototype.toString` and its raw return value
`"[object Undefined]"` is handed back. -/
theorem C2_unknown_tool_text_prefixed :
    (invoke "foo" [] (fun _ => UpstreamResult.failure "") "" "").1
      = InvokeResult.envelope
          { content := [⟨"text", JsVal.str "Error: Unknown tool: foo"⟩],
            metadata := none, isError := some true } ∧
    "Error: Unknown tool: foo" ≠ "Unknown tool: foo" ∧
    registeredTool "toString" = false ∧
    (invoke "toString" [] (fun _ => UpstreamResult.failure "") "" "").1
      = InvokeResult.raw (JsVal.str "[object Undefined]") :=
  ⟨rfl, by decide, rfl, rfl⟩

/-- C2 (amended): for every tool name that is neither one of the three
registered handlers nor one of the twelve `Object.prototype`-inherited
property names, invoking it returns exactly the envelope
`{content:[{type:"text", text:"Error: Unknown tool: <name>"}], isError:true}`
(no `metadata` field) — the text being `"Unknown tool: <name>"` behind the
`"Error: "` prefix the dispatcher’s catch block adds — issues no upstream
call, and never throws and is never fatal to the process. -/
theorem C2_unknown_tool_envelope (name : String)
    (h : registeredTool name = false) (hp : objectPrototypeKey name = false)
    (args : Args) (u : HttpRequest → UpstreamResult) (f g : String) :
    invoke name args u f g =
      (InvokeResult.envelope
        { content := [⟨"text", JsVal.str ("Error: Unknown tool: " ++ name)⟩],
          metadata := none, isError := some true }, []) := by
  unfold registeredTool at h
  simp only [Bool.or_eq_false_iff, beq_eq_false_iff_ne] at h
  obtain ⟨⟨h1, h2⟩, h3⟩ := h
  have h4 : name ≠ "toString" := by
    intro e; subst e; exact absurd hp (by decide)
  have h5 : name ≠ "constructor" := by
    intro e; subst e; exact absurd hp (by decide)
  unfold invoke
  rw [if_neg h1, if_neg h2, if_neg h3, if_neg h4, if_neg h5, hp,
      if_neg (by decide)]

/-- C2 (witness): the amended claim at the concrete name `"foo"`, which is
neither registered nor inherited from `Object.prototype`. -/
theorem C2_unknown_tool_envelope_witness :
    registeredTool "foo" = false ∧ objectPrototypeKey "foo" = false ∧
    invoke "foo" [] (fun _ => UpstreamResult.failure "") "" "" =
      (InvokeResult.envelope
        { content := [⟨"text", JsVal.str "Error: Unknown tool: foo"⟩],
          metadata := none, isError := some true }, []) :=
  ⟨rfl, rfl, C2_unknown_tool_envelope "foo" rfl rfl []
     (fun _ => UpstreamResult.failure "") "" ""⟩

/-- Whenever `chatCompletion`'s validation passes, exactly one upstream
request is issued, namely `chatHttpRequest args`, whatever the upstream
answers. -/
theorem chatCompletion_calls (args : Args) (u : HttpRequest → UpstreamResult)
    (f : String) (h : messagesInvalid (getArg args "messages") = false) :
    (chatCompletion args u f).2 = [chatHttpRequest args] := by
  unfold chatCompletion
  rw [h]
  simp only [Bool.false_eq_true, if_false]
  split
  · rfl
  · rfl
  · split <;> rfl

/-- Whenever `createEmbedding`'s validation passes, exactly one upstream
request is issued, namely `embeddingHttpRequest args`. -/
theorem createEmbedding_calls (args : Args) (u : HttpRequest → UpstreamResult)
    (f : String) (h : truthy (getArg args "input") = true) :
    (createEmbedding args u f).2 = [embeddingHttpRequest args] := by
  unfold createEmbedding
  rw [h]
  simp only [Bool.not_true, Bool.false_eq_true, if_false]
  split
  · rfl
  · rfl
  · split <;> rfl

/-- C3 (counterexample): the empty string is a present `input` value, yet
`createEmbedding` fails with `"Input is required"` and issues no upstream
call, contradicting the claim that any present input proceeds upstream. -/
theorem C3_empty_string_input_rejected :
    getArg [("input", JsVal.str "")] "input" = JsVal.str "" ∧
    createEmbedding [("input", JsVal.str "")] (fun _ => UpstreamResult.failure "boom") "f"
      = (errorEnvelope "Error: Input is required", []) :=
  ⟨rfl, rfl⟩

/-- C3 (amended): `createEmbedding` fails with `"Input is required"` exactly
when `input` is falsy — absent, `undefined`, `null`, `false`, `0` or the
empty string — and any truthy input proceeds to the upstream call; when it
fails this way, zero upstream HTTP calls are made and the result is the
error envelope whose text `"Error: Input is required"` contains
`"Input is required"`. -/
theorem C3_input_required_iff_falsy (args : Args) (u : HttpRequest → UpstreamResult)
    (f : String) :
    (truthy (getArg args "input") = false →
      createEmbedding args u f = (errorEnvelope "Error: Input is required", [])) ∧
    (truthy (getArg args "input") = true →
      (createEmbedding args u f).2 = [embeddingHttpRequest args]) := by
  constructor
  · intro h
    unfold createEmbedding
    rw [h]
    rfl
  · intro h
    exact createEmbedding_calls args u f h

/-- C3 (witness): the amended claim at an absent input (fails, no call) and
at the truthy input `"hello"` (one upstream call). -/
theorem C3_input_required_iff_falsy_witness :
    createEmbedding [] (fun _ => UpstreamResult.failure "") ""
      = (errorEnvelope "Error: Input is required", []) ∧
    (createEmbedding [("input", JsVal.str "hello")]
        (fun _ => UpstreamResult.failure "") "").2
      = [embeddingHttpRequest [("input", JsVal.str "hello")]] :=
  ⟨(C3_input_required_iff_falsy [] (fun _ => UpstreamResult.failure "") "").1 rfl,
   (C3_input_required_iff_falsy [("input", JsVal.str "hello")]
      (fun _ => UpstreamResult.failure "") "").2 rfl⟩

/-- C4 (confirmed): whenever `messages` is absent, not an array, or the
empty array, `chatCompletion` returns the error envelope whose text
`"Error: Messages array is required and must not be empty"` contains the
required message, and issues no upstream HTTP call. -/
theorem C4_messages_validation (args : Args) (u : HttpRequest → UpstreamResult)
    (f : String)
    (h : getArg args "messages" = JsVal.undefined ∨
         isArray (getArg args "messages") = false ∨
         getArg args "messages" = JsVal.arr []) :
    chatCompletion args u f =
      (errorEnvelope "Error: Messages array is required and must not be empty", []) := by
  have hbad : messagesInvalid (getArg args "messages") = true := by
    unfold messagesInvalid
    rcases h with h | h | h
    · rw [h]; rfl
    · rw [h]; simp
    · rw [h]; rfl
  unfold chatCompletion
  rw [hbad]
  rfl

/-- C4 (witness): the claim at concrete inputs: `messages` absent, and
`messages` equal to the empty array. -/
theorem C4_messages_validation_witness :
    chatCompletion [] (fun _ => UpstreamResult.failure "") ""
      = (errorEnvelope "Error: Messages array is required and must not be empty", []) ∧
    chatCompletion [("messages", JsVal.arr [])] (fun _ => UpstreamResult.failure "") ""
      = (errorEnvelope "Error: Messages array is required and must not be empty", []) :=
  ⟨C4_messages_validation [] (fun _ => UpstreamResult.failure "") "" (Or.inl rfl),
   C4_messages_validation [("messages", JsVal.arr [])]
     (fun _ => UpstreamResult.failure "") "" (Or.inr (Or.inr rfl))⟩

/-- C9 (confirmed): the discovery handler is pure — any two calls return
equal results — it returns exactly the three descriptors in declaration
order `[listModels, chatCompletion, createEmbedding]`, and a discovery
call issues no upstream HTTP request. -/
theorem C9_listTools_pure_idempotent (r r' : JsVal) :
    handleListTools r = handleListTools r' ∧
    (handleListTools r).1 = [LIST_MODELS_TOOL, CHAT_COMPLETION_TOOL, CREATE_EMBEDDING_TOOL] ∧
    (handleListTools r).1.map (fun t => t.name)
      = ["listModels", "chatCompletion", "createEmbedding"] ∧
    (handleListTools r).2 = [] :=
  ⟨rfl, rfl, rfl, rfl⟩

/-- C5 (confirmed): on every valid invocation `chatCompletion` issues
exactly the request `chatHttpRequest args`; its body defaults `model` to
`"gpt-3.5-turbo"`, `temperature` to `0.7` and `max_tokens` to `150` when
those arguments are omitted, and always carries `stream: false`, whatever
`stream` argument the caller supplied. -/
theorem C5_request_defaults (args : Args) (u : HttpRequest → UpstreamResult)
    (f : String) (h : messagesInvalid (getArg args "messages") = false) :
    (chatCompletion args u f).2 = [chatHttpRequest args] ∧
    (getArg args "model" = JsVal.undefined →
      jsGet (chatRequestBody args) "model" = .ok (JsVal.str "gpt-3.5-turbo")) ∧
    (getArg args "temperature" = JsVal.undefined →
      jsGet (chatRequestBody args) "temperature" = .ok (JsVal.num (7/10))) ∧
    (getArg args "max_tokens" = JsVal.undefined →
      jsGet (chatRequestBody args) "max_tokens" = .ok (JsVal.num 150)) ∧
    jsGet (chatRequestBody args) "stream" = .ok (JsVal.bool false) := by
  refine ⟨chatCompletion_calls args u f h, ?_, ?_, ?_, ?_⟩
  · intro hm; unfold chatRequestBody; rw [hm]; rfl
  · intro ht; unfold chatRequestBody; rw [ht]; rfl
  · intro hx; unfold chatRequestBody; rw [hx]; rfl
  · unfold chatRequestBody; rfl

/-- A valid one-message `messages` argument shared by the concrete
witnesses below. -/
def validMessagesArgs : Args :=
  [("messages", JsVal.arr [JsVal.obj
      [("role", JsVal.str "user"), ("content", JsVal.str "Hello")]])]

/-- C5 (witness): the defaults at a concrete valid invocation that omits
`model`, `temperature` and `max_tokens`. -/
theorem C5_request_defaults_witness :
    messagesInvalid (getArg validMessagesArgs "messages") = false ∧
    (chatCompletion validMessagesArgs (fun _ => UpstreamResult.failure "") "").2
      = [chatHttpRequest validMessagesArgs] ∧
    jsGet (chatRequestBody validMessagesArgs) "model" = .ok (JsVal.str "gpt-3.5-turbo") ∧
    jsGet (chatRequestBody validMessagesArgs) "temperature" = .ok (JsVal.num (7/10)) ∧
    jsGet (chatRequestBody validMessagesArgs) "max_tokens" = .ok (JsVal.num 150) ∧
    jsGet (chatRequestBody validMessagesArgs) "stream" = .ok (JsVal.bool false) := by
  have h := C5_request_defaults validMessagesArgs (fun _ => UpstreamResult.failure "") "" rfl
  exact ⟨rfl, h.1, h.2.1 rfl, h.2.2.1 rfl, h.2.2.2.1 rfl, h.2.2.2.2⟩

/-- C10 (confirmed): `chatCompletion` treats falsy-but-present values
asymmetrically — any falsy `model` (e.g. the empty string) is replaced by
the default `"gpt-3.5-turbo"` in the upstream body, while a present
`temperature` or `max_tokens` is forwarded unchanged whenever it is not
strictly `undefined`, so `0` is preserved — and the body is sent on every
valid invocation. -/
theorem C10_falsy_asymmetry (args : Args) (u : HttpRequest → UpstreamResult)
    (f : String) (h : messagesInvalid (getArg args "messages") = false) :
    (truthy (getArg args "model") = false →
      jsGet (chatRequestBody args) "model" = .ok (JsVal.str "gpt-3.5-turbo")) ∧
    (getArg args "temperature" ≠ JsVal.undefined →
      jsGet (chatRequestBody args) "temperature" = .ok (getArg args "temperature")) ∧
    (getArg args "max_tokens" ≠ JsVal.undefined →
      jsGet (chatRequestBody args) "max_tokens" = .ok (getArg args "max_tokens")) ∧
    (chatCompletion args u f).2 = [chatHttpRequest args] := by
  refine ⟨?_, ?_, ?_, chatCompletion_calls args u f h⟩
  · intro hm; unfold chatRequestBody; rw [hm]; rfl
  · intro ht
    unfold chatRequestBody
    rcases hv : getArg args "temperature" with _ | _ | b | q | s | xs | kvs
    · exact absurd hv ht
    all_goals rfl
  · intro hx
    unfold chatRequestBody
    rcases hv : getArg args "max_tokens" with _ | _ | b | q | s | xs | kvs
    · exact absurd hv hx
    all_goals rfl

/-- The arguments of the concrete C10 witness: empty-string `model`, zero
`temperature` and `max_tokens`, and a valid `messages`. -/
def falsyPresentArgs : Args :=
  [("model", JsVal.str ""), ("temperature", JsVal.num 0),
   ("max_tokens", JsVal.num 0),
   ("messages", JsVal.arr [JsVal.obj
      [("role", JsVal.str "user"), ("content", JsVal.str "Hello")]])]

/-- C10 (witness): at the concrete arguments the empty-string model is
replaced by the default while `temperature: 0` and `max_tokens: 0` are
forwarded as `0`. -/
theorem C10_falsy_asymmetry_witness :
    jsGet (chatRequestBody falsyPresentArgs) "model" = .ok (JsVal.str "gpt-3.5-turbo") ∧
    jsGet (chatRequestBody falsyPresentArgs) "temperature" = .ok (JsVal.num 0) ∧
    jsGet (chatRequestBody falsyPresentArgs) "max_tokens" = .ok (JsVal.num 0) := by
  have h := C10_falsy_asymmetry falsyPresentArgs (fun _ => UpstreamResult.failure "") "" rfl
  exact ⟨h.1 rfl, h.2.1 (fun hh => JsVal.noConfusion hh),
         h.2.2.1 (fun hh => JsVal.noConfusion hh)⟩

/-- C6 (confirmed): whenever the upstream answers a valid `chatCompletion`
invocation with a success body shaped like the chat-completion response,
the envelope's content is the single text item `choices[0].message.content`
and its metadata is exactly `{model, usage, finish_reason}`, with `model`
and `usage` echoed verbatim from the body and `finish_reason` from
`choices[0]`. -/
theorem C6_success_projection (args : Args) (u : HttpRequest → UpstreamResult)
    (f : String) (model usage content fr : JsVal)
    (h : messagesInvalid (getArg args "messages") = false)
    (hu : u (chatHttpRequest args) = UpstreamResult.success (Except.ok (JsVal.obj
      [("model", model),
       ("choices", JsVal.arr [JsVal.obj
          [("message", JsVal.obj [("content", content)]),
           ("finish_reason", fr)]]),
       ("usage", usage)]))) :
    (chatCompletion args u f).1 =
      { content := [⟨"text", content⟩],
        metadata := some [("model", model), ("usage", usage), ("finish_reason", fr)],
        isError := none } := by
  unfold chatCompletion
  rw [h]
  simp only [Bool.false_eq_true, if_false]
  rw [hu]
  rfl

/-- The stub chat-completion body of the specification's round-trip test. -/
def chatStubBody : JsVal :=
  JsVal.obj
    [("model", JsVal.str "x"),
     ("choices", JsVal.arr [JsVal.obj
        [("message", JsVal.obj [("content", JsVal.str "hi")]),
         ("finish_reason", JsVal.str "stop")]]),
     ("usage", JsVal.obj
        [("prompt_tokens", JsVal.num 3), ("completion_tokens", JsVal.num 1)])]

/-- C6 (witness): the spec's stub upstream yields content text `"hi"` and
metadata exactly `{model:"x", usage:{prompt_tokens:3, completion_tokens:1},
finish_reason:"stop"}`. -/
theorem C6_success_projection_witness :
    (chatCompletion validMessagesArgs
        (fun _ => UpstreamResult.success (Except.ok chatStubBody)) "").1 =
      { content := [⟨"text", JsVal.str "hi"⟩],
        metadata := some
          [("model", JsVal.str "x"),
           ("usage", JsVal.obj
              [("prompt_tokens", JsVal.num 3), ("completion_tokens", JsVal.num 1)]),
           ("finish_reason", JsVal.str "stop")],
        isError := none } :=
  C6_success_projection validMessagesArgs
    (fun _ => UpstreamResult.success (Except.ok chatStubBody)) ""
    (JsVal.str "x")
    (JsVal.obj [("prompt_tokens", JsVal.num 3), ("completion_tokens", JsVal.num 1)])
    (JsVal.str "hi") (JsVal.str "stop") rfl rfl

/-- C8 (confirmed): when the upstream responds non-ok with body `B`, each
handler returns the error envelope whose text embeds `B` verbatim —
`"Error: OpenAI API error: <B>"` for `chatCompletion` and
`createEmbedding`, `"Error listing models: OpenAI API error: <B>"` for
`listModels` — so every such text begins with `"Error"`, and the error
never escapes the handler (an envelope is returned). -/
theorem C8_upstream_error_text (B : String) (args : Args)
    (u : HttpRequest → UpstreamResult) (f : String)
    (hm : messagesInvalid (getArg args "messages") = false)
    (hi : truthy (getArg args "input") = true)
    (hc : u (chatHttpRequest args) = UpstreamResult.failure B)
    (he : u (embeddingHttpRequest args) = UpstreamResult.failure B)
    (hl : u modelsHttpRequest = UpstreamResult.failure B) :
    chatCompletion args u f
      = (errorEnvelope ("Error: OpenAI API error: " ++ B), [chatHttpRequest args]) ∧
    createEmbedding args u f
      = (errorEnvelope ("Error: OpenAI API error: " ++ B), [embeddingHttpRequest args]) ∧
    listModels u f
      = (errorEnvelope ("Error listing models: OpenAI API error: " ++ B),
         [modelsHttpRequest]) := by
  refine ⟨?_, ?_, ?_⟩
  · unfold chatCompletion
    rw [hm]
    simp only [Bool.false_eq_true, if_false]
    rw [hc]
  · unfold createEmbedding
    rw [hi]
    simp only [Bool.not_true, Bool.false_eq_true, if_false]
    rw [he]
  · unfold listModels
    rw [hl]

/-- Arguments that pass both the chat and the embedding validation, for the
C8 witness. -/
def chatAndEmbedArgs : Args :=
  [("messages", JsVal.arr [JsVal.obj
      [("role", JsVal.str "user"), ("content", JsVal.str "Hello")]]),
   ("input", JsVal.str "some text")]

/-- C8 (witness): a stub upstream answering HTTP 500 with body
`"rate limited"` makes all three handlers return the prefixed error
envelope embedding `"rate limited"`. -/
theorem C8_upstream_error_text_witness :
    chatCompletion chatAndEmbedArgs (fun _ => UpstreamResult.failure "rate limited") ""
      = (errorEnvelope "Error: OpenAI API error: rate limited",
         [chatHttpRequest chatAndEmbedArgs]) ∧
    createEmbedding chatAndEmbedArgs (fun _ => UpstreamResult.failure "rate limited") ""
      = (errorEnvelope "Error: OpenAI API error: rate limited",
         [embeddingHttpRequest chatAndEmbedArgs]) ∧
    listModels (fun _ => UpstreamResult.failure "rate limited") ""
      = (errorEnvelope "Error listing models: OpenAI API error: rate limited",
         [modelsHttpRequest]) :=
  C8_upstream_error_text "rate limited" chatAndEmbedArgs
    (fun _ => UpstreamResult.failure "rate limited") "" rfl rfl rfl rfl rfl

/-- Casting a natural `created` within the ECMAScript time range into the
rational model of JS numbers, `new Date(created * 1000).toISOString()`
formats `created * 1000` milliseconds. -/
theorem isoOfEpochSeconds_nat (n : Nat) (hn : n ≤ 8640000000000) :
    isoOfEpochSeconds (n : ℚ) = some (toISOString ((n : Int) * 1000)) := by
  unfold isoOfEpochSeconds
  have h : ((n : ℚ) * 1000) = ((n * 1000 : ℕ) : ℚ) := by push_cast; ring
  rw [h]
  rw [if_pos]
  · rw [Rat.num_natCast]
    have h3 : ((n * 1000 : ℕ) : ℤ) = (n : ℤ) * 1000 := by push_cast; ring
    rw [h3]
  · refine ⟨Rat.den_natCast _, ?_, ?_⟩
    · rw [Rat.num_natCast]
      exact le_trans (by norm_num) (Int.natCast_nonneg _)
    · rw [Rat.num_natCast]
      have h2 : n * 1000 ≤ 8640000000000000 := by
        calc n * 1000 ≤ 8640000000000 * 1000 := Nat.mul_le_mul_right _ hn
          _ = 8640000000000000 := by norm_num
      exact_mod_cast h2

/-- The JS object of one model entry with string id and natural `created`. -/
def modelJs (p : String × Nat) : JsVal :=
  JsVal.obj [("id", JsVal.str p.1), ("created", JsVal.num (p.2 : ℚ))]

/-- The formatted line the source produces for one model entry. -/
def modelLine (p : String × Nat) : String :=
  "- " ++ p.1 ++ " (created: " ++ toISOString ((p.2 : Int) * 1000) ++ ")"

/-- `formatModel` on a well-formed model object whose `created` is inside
the ECMAScript time range yields the formatted line. -/
theorem formatModel_pair (mid : String) (created : Nat)
    (hc : created ≤ 8640000000000) :
    formatModel (JsVal.obj [("id", JsVal.str mid), ("created", JsVal.num (created : ℚ))]) =
      .ok ("- " ++ mid ++ " (created: " ++ toISOString ((created : Int) * 1000) ++ ")") := by
  have h1 : formatModel (JsVal.obj
        [("id", JsVal.str mid), ("created", JsVal.num (created : ℚ))])
      = (ofOption (isoOfEpochSeconds (created : ℚ)) >>= fun isoStr =>
          pure ("- " ++ mid ++ " (created: " ++ isoStr ++ ")")) := rfl
  rw [h1, isoOfEpochSeconds_nat created hc]
  rfl

/-- `formatModels` over a list of well-formed model objects with in-range
`created` values yields the list of formatted lines. -/
theorem formatModels_pairs (models : List (String × Nat))
    (hb : models.all (fun p => p.2 ≤ 8640000000000) = true) :
    formatModels (models.map modelJs) = .ok (models.map modelLine) := by
  induction models with
  | nil => rfl
  | cons p ps ih =>
      simp only [List.all_cons, Bool.and_eq_true, decide_eq_true_eq] at hb
      simp only [List.map_cons, formatModels, bind, Except.bind]
      rw [show formatModel (modelJs p) = .ok (modelLine p) from
            formatModel_pair p.1 p.2 hb.1]
      rw [ih hb.2]
      rfl

/-- `listProject` on a well-formed models body with in-range `created`
values: formatted lines joined with newlines under the fixed header,
`count` equal to the number of models. -/
theorem listProject_models (models : List (String × Nat))
    (hb : models.all (fun p => p.2 ≤ 8640000000000) = true) :
    listProject (JsVal.obj [("data", JsVal.arr (models.map modelJs))]) =
      .ok { content := [⟨"text", JsVal.str ("Available OpenAI Models:\n\n" ++
              String.intercalate "\n" (models.map modelLine))⟩],
            metadata := some [("count", JsVal.num (models.length : ℚ))],
            isError := none } := by
  have h1 : listProject (JsVal.obj [("data", JsVal.arr (models.map modelJs))])
      = (formatModels (models.map modelJs) >>= fun lines =>
          pure { content := [⟨"text", JsVal.str ("Available OpenAI Models:\n\n" ++
                  String.intercalate "\n" lines)⟩],
                 metadata := some [("count", JsVal.num (((models.map modelJs)).length : ℚ))],
                 isError := none }) := rfl
  rw [h1, formatModels_pairs models hb, List.length_map]
  rfl

/-- C7 (confirmed): when the upstream answers `listModels` with a model
list whose `created` values lie inside the ECMAScript time range (beyond
it the source's `Date` throws a RangeError and an error envelope is
returned instead), the envelope wraps one text item in which each model is
formatted as `- <id> (created: <ISO-8601 of created * 1000>)`, the lines
joined with newlines (under the fixed `Available OpenAI Models:` header),
and `metadata.count` equals the number of models. -/
theorem C7_listModels_format (u : HttpRequest → UpstreamResult) (f : String)
    (models : List (String × Nat))
    (hb : models.all (fun p => p.2 ≤ 8640000000000) = true)
    (hu : u modelsHttpRequest = UpstreamResult.success (Except.ok
      (JsVal.obj [("data", JsVal.arr (models.map modelJs))]))) :
    listModels u f =
      ({ content := [⟨"text", JsVal.str ("Available OpenAI Models:\n\n" ++
            String.intercalate "\n" (models.map modelLine))⟩],
         metadata := some [("count", JsVal.num (models.length : ℚ))],
         isError := none },
       [modelsHttpRequest]) := by
  unfold listModels
  simp only [hu]
  rw [listProject_models models hb]

/-- C7 (witness): the spec's two-model stub `[{id:"m1", created:0},
{id:"m2", created:100}]` yields `count = 2` and a text containing both
`m1` and `m2` with their ISO timestamps. -/
theorem C7_listModels_format_witness :
    ([(("m1" : String), (0 : Nat)), ("m2", 100)].all
        (fun p => p.2 ≤ 8640000000000) = true) ∧
    listModels (fun _ => UpstreamResult.success (Except.ok
        (JsVal.obj [("data", JsVal.arr
          [modelJs ("m1", 0), modelJs ("m2", 100)])]))) "" =
      ({ content := [⟨"text", JsVal.str
            ("Available OpenAI Models:\n\n- m1 (created: 1970-01-01T00:00:00.000Z)\n- m2 (created: 1970-01-01T00:01:40.000Z)")⟩],
         metadata := some [("count", JsVal.num 2)],
         isError := none },
       [modelsHttpRequest]) := by
  refine ⟨by decide, ?_⟩
  have h := C7_listModels_format
    (fun _ => UpstreamResult.success (Except.ok
      (JsVal.obj [("data", JsVal.arr [modelJs ("m1", 0), modelJs ("m2", 100)])])))
    "" [("m1", 0), ("m2", 100)] (by decide) rfl
  exact h
